import Mathlib

/-!
# Verification of the Shopify inventory client

A shallow embedding of `src/services/Shopify_Inventory.py` and the
concurrent dispatcher of `src/main.py`.  Python JSON values are modelled
by the inductive type `Json`; Python exceptions (KeyError, TypeError,
AttributeError, ValueError) by the error type `PyErr` in an `Except`
monad.  Transport-level behaviour of `_make_request` is modelled by the
fact that the function returns `none` on any transport failure and
`some response` otherwise, so client operations take the (optional)
server response as an argument.
-/

set_option maxHeartbeats 1000000

/-- A Python JSON value as returned by `response.json()`.  Numbers are
modelled as integers (the API's quantities are integral). -/
inductive Json where
  | null : Json
  | bool : Bool → Json
  | num : Int → Json
  | str : String → Json
  | arr : List Json → Json
  | obj : List (String × Json) → Json

mutual

/-- Structural equality of JSON values, modelling Python `==` on the
values a response can contain.  (Python's numeric cross-type equality
`True == 1` is not modelled; no claim depends on it.) -/
def Json.beq : Json → Json → Bool
  | .null, .null => true
  | .bool a, .bool b => a == b
  | .num a, .num b => a == b
  | .str a, .str b => a == b
  | .arr xs, .arr ys => Json.beqList xs ys
  | .obj xs, .obj ys => Json.beqObj xs ys
  | _, _ => false

/-- Elementwise [[Json.beq]] on lists. -/
def Json.beqList : List Json → List Json → Bool
  | [], [] => true
  | x :: xs, y :: ys => Json.beq x y && Json.beqList xs ys
  | _, _ => false

/-- Elementwise [[Json.beq]] on key/value lists. -/
def Json.beqObj : List (String × Json) → List (String × Json) → Bool
  | [], [] => true
  | (k1, v1) :: xs, (k2, v2) :: ys => k1 == k2 && Json.beq v1 v2 && Json.beqObj xs ys
  | _, _ => false

end

instance : BEq Json := ⟨Json.beq⟩

/-- Python exceptions that the embedded code can raise. -/
inductive PyErr where
  | keyError (k : String) : PyErr
  | typeError : PyErr
  | attributeError : PyErr
  | valueError (msg : String) : PyErr
deriving DecidableEq, Repr

/-- Python truthiness of a JSON value (`bool(x)`). -/
def pyTruthy : Json → Bool
  | .null => false
  | .bool b => b
  | .num n => n != 0
  | .str s => s != ""
  | .arr xs => !xs.isEmpty
  | .obj kvs => !kvs.isEmpty

/-- Python truthiness of an optional value (`None` is falsy). -/
def pyTruthyOpt : Option Json → Bool
  | none => false
  | some j => pyTruthy j

/-- Python subscript `d[k]` with a string key: raises `KeyError` when the
key is absent from a dict, `TypeError` on any non-dict value. -/
def pyGet (j : Json) (k : String) : Except PyErr Json :=
  match j with
  | .obj kvs =>
    match kvs.lookup k with
    | some v => .ok v
    | none => .error (.keyError k)
  | _ => .error .typeError

/-- Python `d.get(k, default)`: `AttributeError` on non-dicts. -/
def pyGetD (j : Json) (k : String) (d : Json) : Except PyErr Json :=
  match j with
  | .obj kvs =>
    match kvs.lookup k with
    | some v => .ok v
    | none => .ok d
  | _ => .error .attributeError

/-- Whether two characters lists have `l₁` as a contiguous substring of
`l₂` (Python `in` on strings). -/
def charsInfix (l₁ l₂ : List Char) : Bool := decide (l₁ <:+: l₂)

/-- Python membership test `k in j` for a string needle: key lookup on
dicts, element equality on lists, substring test on strings, and a
`TypeError` on every other value. -/
def pyInStr (k : String) (j : Json) : Except PyErr Bool :=
  match j with
  | .obj kvs => .ok (kvs.any (fun p => p.1 == k))
  | .arr xs => .ok (xs.any (fun x => match x with | .str s => s == k | _ => false))
  | .str s => .ok (charsInfix k.data s.data)
  | _ => .error .typeError

/-- Python iteration over a JSON value (`for x in j`): elements of a
list, keys of a dict, single-character strings of a string, and a
`TypeError` on every other value. -/
def pyIter (j : Json) : Except PyErr (List Json) :=
  match j with
  | .arr xs => .ok xs
  | .obj kvs => .ok (kvs.map (fun p => .str p.1))
  | .str s => .ok (s.data.map (fun c => .str (String.mk [c])))
  | _ => .error .typeError

/-- Python `.split(sep)` for a single-character separator, on the
character-list representation of the string.  Mirrors CPython: the
result is never empty, and splitting the empty string yields `[[]]`. -/
def splitChars (sep : Char) : List Char → List (List Char)
  | [] => [[]]
  | c :: cs =>
    let rest := splitChars sep cs
    if c = sep then [] :: rest
    else
      match rest with
      | r :: rs => (c :: r) :: rs
      | [] => [[c]]

/-- Python `s.split('/')[-1]`: the substring after the last separator
(`split` never returns an empty list, so `[-1]` cannot fail). -/
def lastSegment (s : String) : String :=
  ((splitChars '/' s.data).getLastD []).asString

/-- Python `s.startswith(p)`. -/
def pyStartswith (s p : String) : Bool := p.data.isPrefixOf s.data

/-- Python `.split` requires a string receiver (`AttributeError`
otherwise); `pySplitLast j` is `j.split('/')[-1]`. -/
def pySplitLast (j : Json) : Except PyErr String :=
  match j with
  | .str s => .ok (lastSegment s)
  | _ => .error .attributeError

/-- A transport-level failure of the underlying HTTP request: connection
error, timeout, or non-2xx status (`requests.exceptions.RequestException`). -/
inductive TransportErr where
  | connectionError : TransportErr
  | timeout : TransportErr
  | httpStatus (code : Nat) : TransportErr
deriving DecidableEq

/-- `_make_request` (lines 18–36): on a transport failure the exception
is caught, logged and swallowed, and the function returns `None`;
otherwise the parsed JSON body is returned. -/
def make_request (transport : Except TransportErr Json) : Option Json :=
  match transport with
  | .error _ => none
  | .ok j => some j

/-- A flattened location record as built by `get_locations`. -/
structure LocationRec where
  id : String
  gid : String
  name : Json
  city : Json

/-- Body of the per-edge loop of `get_locations` (lines 60–67). -/
def parseLocationEdge (edge : Json) : Except PyErr LocationRec := do
  let location ← pyGet edge "node"
  let idJson ← pyGet location "id"
  let idShort ← pySplitLast idJson
  let idStr ← match idJson with
    | .str s => Except.ok s
    | _ => Except.error PyErr.attributeError
  let name ← pyGet location "name"
  let addr ← pyGetD location "address" (.obj [])
  let city ← pyGetD addr "city" (.str "N/A")
  return { id := idShort, gid := idStr, name := name, city := city }

/-- `get_locations` (lines 38–69): issues one request; if the result is
truthy and has a `'data'` key, flattens `data.locations.edges` into
location records, else returns `[]`.  Any missing nested key below
`'data'` raises. -/
def get_locations (resp : Option Json) : Except PyErr (List LocationRec) := do
  match resp with
  | none => return []
  | some result =>
    if !pyTruthy result then return []
    else do
      let hasData ← pyInStr "data" result
      if !hasData then return []
      else do
        let data ← pyGet result "data"
        let locations ← pyGet data "locations"
        let edges ← pyGet locations "edges"
        let edgeList ← pyIter edges
        let recs ← edgeList.mapM parseLocationEdge
        return recs

/-- Identifier normalization applied before the inventory-item queries
(lines 173–174, 223–224): prepend the fully-qualified prefix unless the
string already starts with `gid://`. -/
def normalizeInventoryItemId (i : String) : String :=
  if pyStartswith i "gid://" then i else "gid://shopify/InventoryItem/" ++ i

/-- Identifier normalization for locations (lines 226–227, 329–330). -/
def normalizeLocationId (l : String) : String :=
  if pyStartswith l "gid://" then l else "gid://shopify/Location/" ++ l

/-- A flattened per-location stock level as built by
`get_inventory_levels` (lines 183–190). -/
structure LevelRec where
  location_id : String
  location_gid : String
  location_name : Json
  available : Json

/-- Body of the per-edge loop of `get_inventory_levels` (lines 183–190). -/
def parseLevelEdge (edge : Json) : Except PyErr LevelRec := do
  let level ← pyGet edge "node"
  let loc ← pyGet level "location"
  let locId ← pyGet loc "id"
  let idShort ← pySplitLast locId
  let idStr ← match locId with
    | .str s => Except.ok s
    | _ => Except.error PyErr.attributeError
  let name ← pyGet loc "name"
  let avail ← pyGet level "available"
  return { location_id := idShort, location_gid := idStr,
           location_name := name, available := avail }

/-- `get_inventory_levels` (lines 149–192): normalizes the item id,
issues one request (`server` maps the normalized id to the optional
response), returns `[]` when the response is `None`/falsy, lacks a
`'data'` key, or `data.inventoryItem` is falsy; otherwise flattens
`data.inventoryItem.inventoryLevels.edges`. -/
def get_inventory_levels (server : String → Option Json)
    (inventory_item_id : String) : Except PyErr (List LevelRec) := do
  let iid := normalizeInventoryItemId inventory_item_id
  match server iid with
  | none => return []
  | some result =>
    if !pyTruthy result then return []
    else do
      let hasData ← pyInStr "data" result
      if !hasData then return []
      else do
        let data ← pyGet result "data"
        let item ← pyGet data "inventoryItem"
        if !pyTruthy item then return []
        else do
          let lvls ← pyGet item "inventoryLevels"
          let edges ← pyGet lvls "edges"
          let edgeList ← pyIter edges
          edgeList.mapM parseLevelEdge

/-- `update_inventory` (lines 194–263): normalizes both ids, issues the
adjust mutation (`server` maps the normalized ids, delta and reason to
the optional response); returns `False` when the response is
`None`/falsy or lacks `'data'`, or when `userErrors` is truthy (after
reading each error's field and message); returns `True` otherwise
(after echoing the adjustment group's changes when present). -/
def update_inventory (server : String → String → Int → String → Option Json)
    (inventory_item_id location_id : String) (quantity_change : Int)
    (reason : String) : Except PyErr Bool := do
  let iid := normalizeInventoryItemId inventory_item_id
  let lid := normalizeLocationId location_id
  match server iid lid quantity_change reason with
  | none => return false
  | some result =>
    if !pyTruthy result then return false
    else do
      let hasData ← pyInStr "data" result
      if !hasData then return false
      else do
        let data ← pyGet result "data"
        let adjust ← pyGet data "inventoryAdjustQuantities"
        let userErrors ← pyGet adjust "userErrors"
        if pyTruthy userErrors then do
          let errs ← pyIter userErrors
          let _ ← errs.mapM (fun e => do
            let f ← pyGet e "field"
            let m ← pyGet e "message"
            return (f, m))
          return false
        else do
          let group ← pyGet adjust "inventoryAdjustmentGroup"
          if pyTruthy group then do
            let changes ← pyGet group "changes"
            let changeList ← pyIter changes
            let _ ← changeList.mapM (fun c => do
              let n ← pyGet c "name"
              let d ← pyGet c "delta"
              return (n, d))
            return true
          else return true

/-- Python subtraction-compatible coercion: `int - x` works for ints and
bools (`True` counts as 1), raises `TypeError` otherwise. -/
def pyToInt (j : Json) : Except PyErr Int :=
  match j with
  | .num n => .ok n
  | .bool b => .ok (if b then 1 else 0)
  | _ => .error .typeError

/-- The current-quantity scan of `set_inventory_quantity`
(lines 272–276): first level whose short or full location id matches,
defaulting to 0. -/
def findCurrent : List LevelRec → String → Json
  | [], _ => .num 0
  | l :: ls, lid =>
    if l.location_id == lid || l.location_gid == lid then l.available
    else findCurrent ls lid

/-- `set_inventory_quantity` (lines 265–288): reads the current level
via [[get_inventory_levels]], computes `delta = target - current`; if
the delta is zero returns `True` without calling the mutation,
otherwise delegates to [[update_inventory]] with reason `correction`.
The second component is a ghost log: `some delta` iff the mutation was
invoked, recording the delta it was invoked with. -/
def set_inventory_quantity (serverLevels : String → Option Json)
    (serverUpdate : String → String → Int → String → Option Json)
    (inventory_item_id location_id : String) (new_quantity : Int) :
    Except PyErr (Bool × Option Int) := do
  let current_levels ← get_inventory_levels serverLevels inventory_item_id
  let current := findCurrent current_levels location_id
  let cur ← pyToInt current
  let quantity_change := new_quantity - cur
  if quantity_change == 0 then return (true, none)
  else do
    let r ← update_inventory serverUpdate inventory_item_id location_id
      quantity_change "correction"
    return (r, some quantity_change)

/-- Python hashability: lists and dicts are unhashable and cannot be
dict keys. -/
def pyHashable : Json → Bool
  | .arr _ => false
  | .obj _ => false
  | _ => true

/-- Python dict insertion: an existing key keeps its position and gets
the new value, a new key is appended. -/
def dictInsert (d : List (Json × Json)) (k v : Json) : List (Json × Json) :=
  if d.any (fun p => p.1 == k) then
    d.map (fun p => if p.1 == k then (p.1, v) else p)
  else d ++ [(k, v)]

/-- Python `d.get(k, default)` on a model dict. -/
def dictGetD (d : List (Json × Json)) (k v : Json) : Json :=
  match d.find? (fun p => p.1 == k) with
  | some p => p.2
  | none => v

/-- The dict comprehension
`{q['name']: q['quantity'] for q in item['quantities']}` (line 354). -/
def buildQuantitiesDict (qs : List Json) : Except PyErr (List (Json × Json)) :=
  qs.foldlM (fun d q => do
    let n ← pyGet q "name"
    let qty ← pyGet q "quantity"
    if pyHashable n then return dictInsert d n qty
    else Except.error PyErr.typeError) []

/-- A flattened inventory record as built by
`get_all_inventory_by_location` (lines 357–367). -/
structure InvRecord where
  inventory_level_id : String
  inventory_level_gid : String
  available : Json
  inventory_item_id : String
  inventory_item_gid : String
  sku : Json
  tracked : Json
  location_name : Json
  quantities : List (Json × Json)

/-- Body of the per-edge loop of `get_all_inventory_by_location`
(lines 351–369), including the degenerate conditional
`... if '?' in item['id'] else ...` whose two branches coincide. -/
def parseInvEdge (locData edge : Json) : Except PyErr InvRecord := do
  let item ← pyGet edge "node"
  let qjson ← pyGet item "quantities"
  let qs ← pyIter qjson
  let qd ← buildQuantitiesDict qs
  let available := dictGetD qd (.str "available") (.num 0)
  let idJson ← pyGet item "id"
  let _ ← pyInStr "?" idJson
  let levelId ← pySplitLast idJson
  let levelGid ← match idJson with
    | .str s => Except.ok s
    | _ => Except.error PyErr.attributeError
  let itemObj ← pyGet item "item"
  let itemIdJson ← pyGet itemObj "id"
  let itemId ← pySplitLast itemIdJson
  let itemGid ← match itemIdJson with
    | .str s => Except.ok s
    | _ => Except.error PyErr.attributeError
  let sku ← pyGet itemObj "sku"
  let tracked ← pyGet itemObj "tracked"
  let locName ← pyGet locData "name"
  return { inventory_level_id := levelId, inventory_level_gid := levelGid,
           available := available, inventory_item_id := itemId,
           inventory_item_gid := itemGid, sku := sku, tracked := tracked,
           location_name := locName, quantities := qd }

/-- One loop iteration's record extraction and page-info reads
(lines 348–374): flatten `location.inventoryLevels.edges`, then read
`pageInfo.hasNextPage` and `pageInfo.get('endCursor')`. -/
def parsePage (loc : Json) : Except PyErr (List InvRecord × Json × Json) := do
  let lvls ← pyGet loc "inventoryLevels"
  let edgesJson ← pyGet lvls "edges"
  let edges ← pyIter edgesJson
  let recs ← edges.mapM (parseInvEdge loc)
  let pageInfo ← pyGet lvls "pageInfo"
  let hasNext ← pyGet pageInfo "hasNextPage"
  let endCursor ← pyGetD pageInfo "endCursor" .null
  return (recs, hasNext, endCursor)

/-- Ghost log of one pagination iteration: either a page was fetched
and flattened (`fetched afterCursor numRecords hasNext endCursor`), or
the iteration hit the `break` (`stopped afterCursor`): request failed,
response falsy, no `'data'` key, or falsy `data.location`. -/
inductive PageLog where
  | fetched (afterCursor : Json) (numRecords : Nat) (hasNext : Json) (endCursor : Json)
  | stopped (afterCursor : Json)

/-- The `after` cursor the iteration's request carried. -/
def PageLog.afterCursor : PageLog → Json
  | .fetched c _ _ _ => c
  | .stopped c => c

/-- Records contributed by the logged iterations. -/
def sumRecords : List PageLog → Nat
  | [] => 0
  | .fetched _ n _ _ :: rest => n + sumRecords rest
  | .stopped _ :: rest => sumRecords rest

/-- The `while has_next_page` loop of `get_all_inventory_by_location`
(lines 336–376), with explicit fuel (`none` = fuel exhausted, the
Python loop would still be running).  `server lid first after` is the
optional response to the request with those variables; `acc` and `log`
are the accumulated records and the ghost iteration log. -/
def getAllLoop (server : String → Int → Json → Option Json) (lid : String)
    (first : Int) : Nat → Json → Json → List InvRecord → List PageLog →
    Option (Except PyErr (List InvRecord × List PageLog))
  | fuel, hasNext, cursor, acc, log =>
    if !pyTruthy hasNext then some (.ok (acc, log))
    else
      match fuel with
      | 0 => none
      | fuel' + 1 =>
        match server lid first cursor with
        | none => some (.ok (acc, log ++ [.stopped cursor]))
        | some result =>
          if !pyTruthy result then some (.ok (acc, log ++ [.stopped cursor]))
          else
            match pyInStr "data" result with
            | .error e => some (.error e)
            | .ok false => some (.ok (acc, log ++ [.stopped cursor]))
            | .ok true =>
              match (do
                  let d ← pyGet result "data"
                  pyGet d "location" : Except PyErr Json) with
              | .error e => some (.error e)
              | .ok loc =>
                if !pyTruthy loc then some (.ok (acc, log ++ [.stopped cursor]))
                else
                  match parsePage loc with
                  | .error e => some (.error e)
                  | .ok (recs, hn, ec) =>
                    getAllLoop server lid first fuel' hn ec (acc ++ recs)
                      (log ++ [.fetched cursor recs.length hn ec])

/-- `get_all_inventory_by_location` (lines 291–379): normalize the
location id, then page through `location.inventoryLevels` starting from
cursor `None` with `first = min(limit, 250)`, accumulating flattened
records, until `hasNextPage` is falsy or a request fails. -/
def get_all_inventory_by_location (server : String → Int → Json → Option Json)
    (location_id : String) (limit : Int) (fuel : Nat) :
    Option (Except PyErr (List InvRecord × List PageLog)) :=
  let lid := normalizeLocationId location_id
  getAllLoop server lid (min limit 250) fuel (.bool true) .null [] []

/-- One update command as submitted to the thread pool in `main`
(line 50): a call of `set_inventory_quantity` with its arguments and
the server responses its two requests will receive. -/
structure UpdateCommand where
  serverLevels : String → Option Json
  serverUpdate : String → String → Int → String → Option Json
  inventory_item_id : String
  location_id : String
  new_quantity : Int

/-- Execution of one submitted command: the future's outcome, either
the boolean result (with the ghost mutation log) or the raised fault. -/
def runCommand (c : UpdateCommand) : Except PyErr (Bool × Option Int) :=
  set_inventory_quantity c.serverLevels c.serverUpdate c.inventory_item_id
    c.location_id c.new_quantity

/-- The concurrent dispatcher of `main` (lines 40–57): all commands are
submitted to the pool; `as_completed` drains every future in some
completion order `order` (a permutation of the submission indices), and
the `try`/`except` around `future.result()` turns each outcome into
either the returned value or the captured fault, never aborting the
drain loop.  The pool only schedules — every command runs exactly once
regardless of pool width. -/
def dispatch (cmds : List UpdateCommand) (order : List Nat) :
    List (Except PyErr (Bool × Option Int)) :=
  order.map fun i => (cmds.map runCommand).getD i (.ok (false, none))

/-- Python truthiness of `os.getenv`'s result: `None` and `''` are
falsy. -/
def pyTruthyStr : Option String → Bool
  | none => false
  | some s => s != ""

/-- Python f-string interpolation of a possibly-`None` string. -/
def fstrOpt : Option String → String
  | none => "None"
  | some s => s

/-- The constructed client state (lines 10–13). -/
structure ShopifyInventoryManager where
  shop_domain : Option String
  access_token : Option String
  api_version : String
  base_url : String

/-- `ShopifyInventoryManager.__init__` (lines 9–16): read the shop
domain, access token and API version (default `2024-07`) from the
environment, build the base URL, then raise `ValueError` when the
domain or the token is missing or empty. -/
def mkManager (env : String → Option String) :
    Except PyErr ShopifyInventoryManager :=
  let shop := env "SHOPIFY_SHOP_DOMAIN"
  let tok := env "SHOPIFY_ACCESS_TOKEN"
  let ver := match env "SHOPIFY_API_VERSION" with
    | none => "2024-07"
    | some v => v
  let base := "https://" ++ fstrOpt shop ++ "/admin/api/" ++ ver ++ "/graphql.json"
  if !pyTruthyStr shop || !pyTruthyStr tok then
    .error (.valueError
      "SHOPIFY_SHOP_DOMAIN y SHOPIFY_ACCESS_TOKEN son requeridos en el archivo .env")
  else
    .ok { shop_domain := shop, access_token := tok, api_version := ver,
          base_url := base }

/-! ## Helper lemmas -/

theorem pyStartswith_append (pre s : String)
    (h : pyStartswith pre "gid://" = true) :
    pyStartswith (pre ++ s) "gid://" = true := by
  unfold pyStartswith at h ⊢
  rw [String.data_append]
  rw [List.isPrefixOf_iff_prefix] at h ⊢
  exact h.trans (List.prefix_append _ _)

theorem splitChars_cons (sep c : Char) (cs : List Char) :
    splitChars sep (c :: cs) =
      if c = sep then [] :: splitChars sep cs
      else
        match splitChars sep cs with
        | r :: rs => (c :: r) :: rs
        | [] => [[c]] := rfl

theorem splitChars_ne_nil (sep : Char) : ∀ l, splitChars sep l ≠ []
  | [] => by simp [splitChars]
  | c :: cs => by
    rw [splitChars_cons]
    split
    · simp
    · split <;> simp

theorem splitChars_of_not_mem (sep : Char) (l : List Char) (h : sep ∉ l) :
    splitChars sep l = [l] := by
  induction l with
  | nil => rfl
  | cons c cs ih =>
    rw [splitChars_cons]
    have hc : ¬ c = sep := fun e => h (e ▸ List.mem_cons_self c cs)
    rw [if_neg hc, ih (fun hm => h (List.mem_cons_of_mem c hm))]

theorem two_le_splitChars_length (sep : Char) (l : List Char) (h : sep ∈ l) :
    2 ≤ (splitChars sep l).length := by
  induction l with
  | nil => cases h
  | cons c cs ih =>
    rw [splitChars_cons]
    by_cases hc : c = sep
    · rw [if_pos hc]
      cases hsc : splitChars sep cs with
      | nil => exact absurd hsc (splitChars_ne_nil sep cs)
      | cons r rs => simp
    · rw [if_neg hc]
      have hmem : sep ∈ cs := by
        rcases List.mem_cons.mp h with h1 | h2
        · exact absurd h1.symm hc
        · exact h2
      have h2 := ih hmem
      cases hsc : splitChars sep cs with
      | nil => exact absurd hsc (splitChars_ne_nil sep cs)
      | cons r rs =>
        rw [hsc] at h2
        simpa using h2

theorem splitChars_append_sep_getLast (sep : Char) (ys : List Char) :
    ∀ xs, (splitChars sep (xs ++ sep :: ys)).getLastD [] =
      (splitChars sep ys).getLastD []
  | [] => by
    rw [List.nil_append, splitChars_cons, if_pos rfl, List.getLastD_cons]
  | c :: xs => by
    rw [List.cons_append, splitChars_cons]
    by_cases hc : c = sep
    · rw [if_pos hc, List.getLastD_cons]
      exact splitChars_append_sep_getLast sep ys xs
    · rw [if_neg hc]
      have hlen := two_le_splitChars_length sep (xs ++ sep :: ys) (by simp)
      cases hsc : splitChars sep (xs ++ sep :: ys) with
      | nil => exact absurd hsc (splitChars_ne_nil sep _)
      | cons r rs =>
        rw [hsc] at hlen
        cases rs with
        | nil => simp at hlen
        | cons r2 rs2 =>
          have ihx := splitChars_append_sep_getLast sep ys xs
          rw [hsc] at ihx
          rw [List.getLastD_cons, List.getLastD_cons] at ihx
          rw [List.getLastD_cons, List.getLastD_cons]
          exact ihx

/-! ## Claims -/

/-- C4: for every transport-level failure of the underlying HTTP
request (connection error, timeout, non-2xx status), `_make_request`
swallows the exception and returns `None`, and `get_locations` then
returns the empty list without raising any exception to the caller. -/
theorem get_locations_transport_failure (e : TransportErr) :
    get_locations (make_request (.error e)) = .ok [] := rfl

/-- C7: the identifier normalization applied before network calls
(prepend the fully-qualified prefix unless the string already starts
with `gid://`) is idempotent, both for inventory-item ids and for
location ids. -/
theorem normalize_idempotent (i : String) :
    normalizeInventoryItemId (normalizeInventoryItemId i) =
      normalizeInventoryItemId i ∧
    normalizeLocationId (normalizeLocationId i) = normalizeLocationId i := by
  constructor
  · unfold normalizeInventoryItemId
    by_cases h : pyStartswith i "gid://" = true
    · simp [h]
    · simp only [h, if_false, Bool.false_eq_true]
      rw [pyStartswith_append "gid://shopify/InventoryItem/" i (by decide)]
      simp
  · unfold normalizeLocationId
    by_cases h : pyStartswith i "gid://" = true
    · simp [h]
    · simp only [h, if_false, Bool.false_eq_true]
      rw [pyStartswith_append "gid://shopify/Location/" i (by decide)]
      simp

/-- C8: for every fully-qualified identifier
`gid://shopify/<EntityType>/<tail>` (the tail, being a short id,
contains no separator), extracting the short form by taking the
substring after the last `/` (the code's `.split('/')[-1]`) and
prepending `gid://shopify/<EntityType>/` again yields the original
fully-qualified identifier. -/
theorem gid_short_form_roundtrip (entity tail : String)
    (h : '/' ∉ tail.data) :
    "gid://shopify/" ++ entity ++ "/" ++
        lastSegment ("gid://shopify/" ++ entity ++ "/" ++ tail) =
      "gid://shopify/" ++ entity ++ "/" ++ tail := by
  have hdata : ("gid://shopify/" ++ entity ++ "/" ++ tail).data =
      ("gid://shopify/".data ++ entity.data) ++ '/' :: tail.data := by
    rw [String.data_append, String.data_append, String.data_append,
      List.append_assoc]
    rfl
  unfold lastSegment
  rw [hdata, splitChars_append_sep_getLast, splitChars_of_not_mem _ _ h]
  rfl

/-- Witness for C8 at `EntityType = Location`, `tail = 123`. -/
theorem gid_short_form_roundtrip_witness :
    '/' ∉ "123".data ∧
      "gid://shopify/" ++ "Location" ++ "/" ++
          lastSegment ("gid://shopify/" ++ "Location" ++ "/" ++ "123") =
        "gid://shopify/" ++ "Location" ++ "/" ++ "123" :=
  ⟨by decide, gid_short_form_roundtrip "Location" "123" (by decide)⟩

theorem findCurrent_absent (ls : List LevelRec) (lid : String)
    (h : ∀ l ∈ ls, (l.location_id == lid || l.location_gid == lid) = false) :
    findCurrent ls lid = .num 0 := by
  induction ls with
  | nil => rfl
  | cons l ls ih =>
    rw [findCurrent]
    rw [h l (List.mem_cons_self l ls)]
    exact ih (fun x hx => h x (List.mem_cons_of_mem l hx))

/-- C2: `set_inventory_quantity` reads the current level via
`get_inventory_levels` (whose first matching level, or 0 when the
location appears in no returned level, gives `current`), computes
`delta = target - current`; a zero delta returns `True` with no
mutation call (ghost log `none`), and a non-zero delta performs exactly
one `update_inventory` call with that delta (ghost log
`some delta`), returning its result. -/
theorem set_inventory_quantity_spec (sL : String → Option Json)
    (sU : String → String → Int → String → Option Json)
    (iid lid : String) (target : Int) (ls : List LevelRec) (cur : Int)
    (hls : get_inventory_levels sL iid = .ok ls)
    (hcur : pyToInt (findCurrent ls lid) = .ok cur) :
    ((∀ l ∈ ls, (l.location_id == lid || l.location_gid == lid) = false) →
        findCurrent ls lid = .num 0) ∧
    (target - cur = 0 →
        set_inventory_quantity sL sU iid lid target = .ok (true, none)) ∧
    (∀ b : Bool, target - cur ≠ 0 →
        update_inventory sU iid lid (target - cur) "correction" = .ok b →
        set_inventory_quantity sL sU iid lid target =
          .ok (b, some (target - cur))) := by
  refine ⟨findCurrent_absent ls lid, ?_, ?_⟩
  · intro h0
    unfold set_inventory_quantity
    rw [hls]
    show (pyToInt (findCurrent ls lid) >>= _) = _
    rw [hcur]
    show (if (target - cur == 0) = true then _ else _) = _
    rw [if_pos (by simpa using h0)]
    rfl
  · intro b hne hupd
    unfold set_inventory_quantity
    rw [hls]
    show (pyToInt (findCurrent ls lid) >>= _) = _
    rw [hcur]
    show (if (target - cur == 0) = true then _ else _) = _
    rw [if_neg (by simpa using hne)]
    show (update_inventory sU iid lid (target - cur) "correction" >>= _) = _
    rw [hupd]
    rfl

/-- A levels response with one level: 10 available at location 77. -/
def wLevelsResp : Json :=
  .obj [("data", .obj [("inventoryItem", .obj [
    ("inventoryLevels", .obj [("edges", .arr [
      .obj [("node", .obj [
        ("id", .str "gid://shopify/InventoryLevel/5"),
        ("available", .num 10),
        ("location", .obj [
          ("id", .str "gid://shopify/Location/77"),
          ("name", .str "Main")])])]])])])])]

/-- A server answering every levels query with [[wLevelsResp]]. -/
def wLevelsServer : String → Option Json := fun _ => some wLevelsResp

/-- A mutation response with no user errors and a null group. -/
def wUpdateResp : Json :=
  .obj [("data", .obj [("inventoryAdjustQuantities", .obj [
    ("userErrors", .arr []),
    ("inventoryAdjustmentGroup", .null)])])]

/-- A server answering every adjust mutation with [[wUpdateResp]]. -/
def wUpdateServer : String → String → Int → String → Option Json :=
  fun _ _ _ _ => some wUpdateResp

/-- The level record [[wLevelsResp]] flattens to. -/
def wLevelRec : LevelRec :=
  { location_id := "77", location_gid := "gid://shopify/Location/77",
    location_name := .str "Main", available := .num 10 }

/-- Witness for C2: with current = 10, target 35 yields one adjust call
with delta +25, and target 10 yields success with zero mutation
calls. -/
theorem set_inventory_quantity_spec_witness :
    set_inventory_quantity wLevelsServer wUpdateServer "item1" "77" 35 =
      .ok (true, some 25) ∧
    set_inventory_quantity wLevelsServer wUpdateServer "item1" "77" 10 =
      .ok (true, none) := by
  constructor
  · have h := set_inventory_quantity_spec wLevelsServer wUpdateServer
      "item1" "77" 35 [wLevelRec] 10 rfl rfl
    have h2 := h.2.2 true (by decide) rfl
    simpa using h2
  · have h := set_inventory_quantity_spec wLevelsServer wUpdateServer
      "item1" "77" 10 [wLevelRec] 10 rfl rfl
    exact h.2.1 (by decide)

theorem ok_bind {α β : Type} (a : α) (f : α → Except PyErr β) :
    (Except.ok a >>= f) = f a := rfl

theorem error_bind {α β : Type} (e : PyErr) (f : α → Except PyErr β) :
    ((Except.error e : Except PyErr α) >>= f) = .error e := rfl

theorem pure_bind_ok {α β : Type} (a : α) (f : α → Except PyErr β) :
    ((pure a : Except PyErr α) >>= f) = f a := rfl

theorem mapM_fieldMessage_ok (entries : List Json)
    (h : ∀ e ∈ entries, ∃ f m,
      pyGet e "field" = .ok f ∧ pyGet e "message" = .ok m) :
    ∃ pairs : List (Json × Json),
      entries.mapM (fun e => do
        let f ← pyGet e "field"
        let m ← pyGet e "message"
        return (f, m)) = Except.ok (ε := PyErr) pairs := by
  induction entries with
  | nil => exact ⟨[], rfl⟩
  | cons e es ih =>
    obtain ⟨f, m, hf, hm⟩ := h e (List.mem_cons_self e es)
    obtain ⟨ps, hps⟩ := ih (fun x hx => h x (List.mem_cons_of_mem e hx))
    refine ⟨(f, m) :: ps, ?_⟩
    rw [List.mapM_cons]
    simp only [hf, hm, hps, ok_bind, pure_bind_ok]
    rfl

theorem update_inventory_userErrors_aux
    (sU : String → String → Int → String → Option Json)
    (iid lid : String) (qc : Int) (reason : String)
    (result data adjust : Json) (errEntries : List Json)
    (hs : sU (normalizeInventoryItemId iid) (normalizeLocationId lid) qc reason
      = some result)
    (ht : pyTruthy result = true)
    (hd : pyInStr "data" result = .ok true)
    (hdata : pyGet result "data" = .ok data)
    (hadj : pyGet data "inventoryAdjustQuantities" = .ok adjust)
    (hue : pyGet adjust "userErrors" = .ok (.arr errEntries))
    (hne : errEntries ≠ [])
    (hwf : ∀ e ∈ errEntries, ∃ f m,
      pyGet e "field" = .ok f ∧ pyGet e "message" = .ok m) :
    update_inventory sU iid lid qc reason = .ok false := by
  obtain ⟨pairs, hpairs⟩ := mapM_fieldMessage_ok errEntries hwf
  have htrue : pyTruthy (.arr errEntries) = true := by
    cases errEntries with
    | nil => exact absurd rfl hne
    | cons a l => rfl
  have hiter : pyIter (.arr errEntries) = .ok errEntries := rfl
  simp only [update_inventory, hs, ht, hd, hdata, hadj, hue, htrue, hiter,
    hpairs, ok_bind, error_bind, pure_bind_ok,
    Bool.not_true, Bool.false_eq_true, if_false, if_true, ite_false,
    ite_true]
  rfl

theorem update_inventory_ok_true_aux
    (sU : String → String → Int → String → Option Json)
    (iid lid : String) (qc : Int) (reason : String)
    (hupd : update_inventory sU iid lid qc reason = .ok true) :
    ∃ result data adjust ue,
      sU (normalizeInventoryItemId iid) (normalizeLocationId lid) qc reason
          = some result ∧
      pyGet result "data" = .ok data ∧
      pyGet data "inventoryAdjustQuantities" = .ok adjust ∧
      pyGet adjust "userErrors" = .ok ue ∧
      pyTruthy ue = false := by
  simp only [update_inventory] at hupd
  cases hs : sU (normalizeInventoryItemId iid) (normalizeLocationId lid) qc reason with
  | none =>
    rw [hs] at hupd
    exact absurd (Except.ok.inj hupd) (by simp)
  | some result =>
    rw [hs] at hupd
    dsimp only at hupd
    by_cases ht : pyTruthy result = true
    · rw [if_neg (by simp [ht])] at hupd
      cases h3 : pyInStr "data" result with
      | error e =>
        rw [h3, error_bind] at hupd
        exact Except.noConfusion hupd
      | ok hasData =>
        rw [h3, ok_bind] at hupd
        cases hasData with
        | false =>
          rw [if_pos (by simp)] at hupd
          exact absurd (Except.ok.inj hupd) (by simp)
        | true =>
          rw [if_neg (by simp)] at hupd
          cases hdata : pyGet result "data" with
          | error e =>
            rw [hdata, error_bind] at hupd
            exact Except.noConfusion hupd
          | ok data =>
            rw [hdata, ok_bind] at hupd
            cases hadj : pyGet data "inventoryAdjustQuantities" with
            | error e =>
              rw [hadj, error_bind] at hupd
              exact Except.noConfusion hupd
            | ok adjust =>
              rw [hadj, ok_bind] at hupd
              cases hue : pyGet adjust "userErrors" with
              | error e =>
                rw [hue, error_bind] at hupd
                exact Except.noConfusion hupd
              | ok ue =>
                rw [hue, ok_bind] at hupd
                by_cases hut : pyTruthy ue = true
                · rw [if_pos hut] at hupd
                  cases hit : pyIter ue with
                  | error e =>
                    rw [hit, error_bind] at hupd
                    exact Except.noConfusion hupd
                  | ok errs =>
                    rw [hit, ok_bind] at hupd
                    cases hmm : errs.mapM (fun e => do
                        let f ← pyGet e "field"
                        let m ← pyGet e "message"
                        return (f, m)) with
                    | error e =>
                      rw [hmm, error_bind] at hupd
                      exact Except.noConfusion hupd
                    | ok pairs =>
                      rw [hmm, ok_bind] at hupd
                      exact absurd (Except.ok.inj hupd) (by simp)
                · exact ⟨result, data, adjust, ue, rfl, hdata, hadj, hue,
                    by simpa using hut⟩
    · rw [if_pos (by simpa using ht)] at hupd
      exact absurd (Except.ok.inj hupd) (by simp)

/-- C5: `update_inventory` returns `False` (and raises nothing) on
every mutation response whose `userErrors` list is non-empty, after
reading each error's field/message pair; and it returns `True` only
when the request succeeded and the reported `userErrors` value was
empty/falsy. -/
theorem update_inventory_user_errors_spec :
    (∀ (sU : String → String → Int → String → Option Json)
        (iid lid : String) (qc : Int) (reason : String)
        (result data adjust : Json) (errEntries : List Json),
      sU (normalizeInventoryItemId iid) (normalizeLocationId lid) qc reason
          = some result →
      pyTruthy result = true →
      pyInStr "data" result = .ok true →
      pyGet result "data" = .ok data →
      pyGet data "inventoryAdjustQuantities" = .ok adjust →
      pyGet adjust "userErrors" = .ok (.arr errEntries) →
      errEntries ≠ [] →
      (∀ e ∈ errEntries, ∃ f m,
        pyGet e "field" = .ok f ∧ pyGet e "message" = .ok m) →
      update_inventory sU iid lid qc reason = .ok false) ∧
    (∀ (sU : String → String → Int → String → Option Json)
        (iid lid : String) (qc : Int) (reason : String),
      update_inventory sU iid lid qc reason = .ok true →
      ∃ result data adjust ue,
        sU (normalizeInventoryItemId iid) (normalizeLocationId lid) qc reason
            = some result ∧
        pyGet result "data" = .ok data ∧
        pyGet data "inventoryAdjustQuantities" = .ok adjust ∧
        pyGet adjust "userErrors" = .ok ue ∧
        pyTruthy ue = false) :=
  ⟨fun sU iid lid qc reason result data adjust errEntries
      hs ht hd hdata hadj hue hne hwf =>
    update_inventory_userErrors_aux sU iid lid qc reason result data adjust
      errEntries hs ht hd hdata hadj hue hne hwf,
   fun sU iid lid qc reason hupd =>
    update_inventory_ok_true_aux sU iid lid qc reason hupd⟩

/-- A user-error entry with a field/message pair. -/
def wErrEntry : Json :=
  .obj [("field", .str "inventoryItemId"), ("message", .str "Invalid item")]

/-- The adjust node carrying one user error. -/
def wErrAdjust : Json :=
  .obj [("userErrors", .arr [wErrEntry]), ("inventoryAdjustmentGroup", .null)]

/-- The data node of [[wErrResp]]. -/
def wErrData : Json := .obj [("inventoryAdjustQuantities", wErrAdjust)]

/-- A mutation response reporting one user error. -/
def wErrResp : Json := .obj [("data", wErrData)]

/-- A server answering every adjust mutation with [[wErrResp]]. -/
def wErrServer : String → String → Int → String → Option Json :=
  fun _ _ _ _ => some wErrResp

/-- Witness for C5: a one-entry `userErrors` response yields `False`;
a clean success response yields `True` with falsy `userErrors`. -/
theorem update_inventory_user_errors_spec_witness :
    update_inventory wErrServer "9" "8" 5 "correction" = .ok false ∧
    (∃ result data adjust ue,
      wUpdateServer (normalizeInventoryItemId "item1")
          (normalizeLocationId "77") 25 "correction" = some result ∧
      pyGet result "data" = .ok data ∧
      pyGet data "inventoryAdjustQuantities" = .ok adjust ∧
      pyGet adjust "userErrors" = .ok ue ∧
      pyTruthy ue = false) := by
  constructor
  · exact update_inventory_user_errors_spec.1 wErrServer "9" "8" 5 "correction"
      wErrResp wErrData wErrAdjust [wErrEntry] rfl rfl rfl rfl rfl rfl
      (List.cons_ne_nil _ _)
      (fun e he => by
        rw [List.mem_singleton] at he
        subst he
        exact ⟨.str "inventoryItemId", .str "Invalid item", rfl, rfl⟩)
  · exact update_inventory_user_errors_spec.2 wUpdateServer "item1" "77" 25
      "correction" rfl

theorem gl_missing (kvs : List (String × Json))
    (h : kvs.any (fun p => p.1 == "data") = false) :
    get_locations (some (.obj kvs)) = .ok [] := by
  simp only [get_locations, pyInStr, h, ok_bind, Bool.not_false, if_true,
    ite_true, ite_self]
  rfl

theorem gil_missing (kvs : List (String × Json)) (iid : String)
    (h : kvs.any (fun p => p.1 == "data") = false) :
    get_inventory_levels (fun _ => some (.obj kvs)) iid = .ok [] := by
  simp only [get_inventory_levels, pyInStr, h, ok_bind, Bool.not_false,
    if_true, ite_true, ite_self]
  rfl

theorem ui_missing (kvs : List (String × Json)) (iid lid : String)
    (qc : Int) (reason : String)
    (h : kvs.any (fun p => p.1 == "data") = false) :
    update_inventory (fun _ _ _ _ => some (.obj kvs)) iid lid qc reason
      = .ok false := by
  simp only [update_inventory, pyInStr, h, ok_bind, Bool.not_false,
    if_true, ite_true, ite_self]
  rfl

theorem gil_null_item (iid : String) (item : Json)
    (hfalsy : pyTruthy item = false) :
    get_inventory_levels
      (fun _ => some (.obj [("data", .obj [("inventoryItem", item)])])) iid
      = .ok [] := by
  have h1 : pyTruthy (Json.obj [("data", Json.obj [("inventoryItem", item)])])
      = true := rfl
  simp [get_inventory_levels, pyInStr, pyGet, h1, hfalsy, ok_bind,
    pure_bind_ok, List.lookup]

/-- C3 counterexample: the claim fails on the code — when the
`'data'` object is present but lacks the expected nested key, the
operations raise a `KeyError` instead of returning an empty
collection: concretely on the response `{"data": {}}`. -/
theorem missing_nested_key_raises :
    get_locations (some (.obj [("data", .obj [])]))
        = .error (.keyError "locations") ∧
    get_inventory_levels (fun _ => some (.obj [("data", .obj [])])) "1"
        = .error (.keyError "inventoryItem") ∧
    update_inventory (fun _ _ _ _ => some (.obj [("data", .obj [])]))
        "1" "2" 5 "correction"
        = .error (.keyError "inventoryAdjustQuantities") :=
  ⟨rfl, rfl, rfl⟩

/-- C3 (amended): a response whose top-level `'data'` key is absent is
treated as not-found by `get_locations`, `get_inventory_levels` and
`update_inventory` (empty collection or `False`, no fault), and
`get_inventory_levels` also treats a falsy `data.inventoryItem` as
not-found; but when `'data'` is present and a deeper expected nested
key is absent, the operation raises a `KeyError` to the caller. -/
theorem missing_data_treated_not_found (kvs : List (String × Json))
    (iid lid : String) (qc : Int) (reason : String) (item : Json)
    (h : kvs.any (fun p => p.1 == "data") = false)
    (hfalsy : pyTruthy item = false) :
    get_locations (some (.obj kvs)) = .ok [] ∧
    get_inventory_levels (fun _ => some (.obj kvs)) iid = .ok [] ∧
    update_inventory (fun _ _ _ _ => some (.obj kvs)) iid lid qc reason
        = .ok false ∧
    get_inventory_levels
        (fun _ => some (.obj [("data", .obj [("inventoryItem", item)])])) iid
        = .ok [] ∧
    get_locations (some (.obj [("data", .obj [])]))
        = .error (.keyError "locations") ∧
    get_inventory_levels (fun _ => some (.obj [("data", .obj [])])) iid
        = .error (.keyError "inventoryItem") ∧
    update_inventory (fun _ _ _ _ => some (.obj [("data", .obj [])]))
        iid lid qc reason = .error (.keyError "inventoryAdjustQuantities") :=
  ⟨gl_missing kvs h, gil_missing kvs iid h, ui_missing kvs iid lid qc reason h,
   gil_null_item iid item hfalsy, rfl, rfl, rfl⟩

/-- Witness for C3's amended theorem at a concrete keyless response and
a null `inventoryItem`. -/
theorem missing_data_treated_not_found_witness :
    get_locations (some (.obj [("ok", .bool true)])) = .ok [] ∧
    get_inventory_levels (fun _ => some (.obj [("ok", .bool true)])) "1"
        = .ok [] ∧
    update_inventory (fun _ _ _ _ => some (.obj [("ok", .bool true)]))
        "1" "2" 5 "correction" = .ok false ∧
    get_inventory_levels
        (fun _ => some (.obj [("data", .obj [("inventoryItem", .null)])])) "1"
        = .ok [] ∧
    get_locations (some (.obj [("data", .obj [])]))
        = .error (.keyError "locations") ∧
    get_inventory_levels (fun _ => some (.obj [("data", .obj [])])) "1"
        = .error (.keyError "inventoryItem") ∧
    update_inventory (fun _ _ _ _ => some (.obj [("data", .obj [])]))
        "1" "2" 5 "correction"
        = .error (.keyError "inventoryAdjustQuantities") :=
  missing_data_treated_not_found [("ok", .bool true)] "1" "2" 5 "correction"
    .null (by decide) rfl

/-- C10: constructing a `ShopifyInventoryManager` raises `ValueError`
exactly when the shop-domain or access-token configuration value is
missing (`None`) or empty; when both are present the construction
succeeds with the values read from the environment once (every other
operation takes the constructed manager or server, never the
environment). -/
theorem mkManager_spec (env : String → Option String) :
    ((pyTruthyStr (env "SHOPIFY_SHOP_DOMAIN") = false ∨
        pyTruthyStr (env "SHOPIFY_ACCESS_TOKEN") = false) ↔
      mkManager env = .error (.valueError
        "SHOPIFY_SHOP_DOMAIN y SHOPIFY_ACCESS_TOKEN son requeridos en el archivo .env")) ∧
    (pyTruthyStr (env "SHOPIFY_SHOP_DOMAIN") = true →
      pyTruthyStr (env "SHOPIFY_ACCESS_TOKEN") = true →
      mkManager env = .ok
        { shop_domain := env "SHOPIFY_SHOP_DOMAIN",
          access_token := env "SHOPIFY_ACCESS_TOKEN",
          api_version := match env "SHOPIFY_API_VERSION" with
            | none => "2024-07"
            | some v => v,
          base_url := "https://" ++ fstrOpt (env "SHOPIFY_SHOP_DOMAIN") ++
            "/admin/api/" ++
            (match env "SHOPIFY_API_VERSION" with
              | none => "2024-07"
              | some v => v) ++ "/graphql.json" }) := by
  constructor
  · constructor
    · rintro (h | h) <;> simp [mkManager, h]
    · intro h
      rcases Bool.eq_false_or_eq_true (pyTruthyStr (env "SHOPIFY_SHOP_DOMAIN")) with h1 | h1
      · rcases Bool.eq_false_or_eq_true (pyTruthyStr (env "SHOPIFY_ACCESS_TOKEN")) with h2 | h2
        · simp [mkManager, h1, h2] at h
        · exact Or.inr h2
      · exact Or.inl h1
  · intro h1 h2
    simp [mkManager, h1, h2]

/-- An environment with both required configuration values set. -/
def wEnvGood : String → Option String := fun k =>
  if k == "SHOPIFY_SHOP_DOMAIN" then some "shop.myshopify.com"
  else if k == "SHOPIFY_ACCESS_TOKEN" then some "token123"
  else none

/-- Witness for C10: construction succeeds on a complete environment
and raises `ValueError` on an empty one. -/
theorem mkManager_spec_witness :
    mkManager wEnvGood = .ok
      { shop_domain := some "shop.myshopify.com",
        access_token := some "token123",
        api_version := "2024-07",
        base_url :=
          "https://shop.myshopify.com/admin/api/2024-07/graphql.json" } ∧
    mkManager (fun _ => none) = .error (.valueError
      "SHOPIFY_SHOP_DOMAIN y SHOPIFY_ACCESS_TOKEN son requeridos en el archivo .env") := by
  constructor
  · have h := (mkManager_spec wEnvGood).2 rfl rfl
    exact h
  · exact (mkManager_spec (fun _ => none)).1.mp (Or.inl rfl)

theorem range_map_getD {α : Type} (l : List α) (d : α) :
    (List.range l.length).map (fun i => l.getD i d) = l := by
  induction l with
  | nil => rfl
  | cons a t ih =>
    rw [List.length_cons, List.range_succ_eq_map, List.map_cons, List.map_map]
    have hcomp : List.map ((fun i => (a :: t).getD i d) ∘ Nat.succ)
        (List.range t.length) = List.map (fun i => t.getD i d)
        (List.range t.length) := by
      apply List.map_congr_left
      intro i _
      simp [List.getD_cons_succ]
    rw [hcomp, ih]
    rfl

/-- C9: for every list of commands submitted to the dispatcher and
every completion order (a permutation of the submission indices — the
pool width only affects scheduling, which the completion order
abstracts), the dispatcher yields exactly one outcome per command —
the command's boolean result or its captured fault — so the collected
outcomes are a permutation of the per-command execution results: no
command's fault prevents any other command from completing or being
reported, and the dispatcher returns only after all are drained. -/
theorem dispatch_spec (cmds : List UpdateCommand) (order : List Nat)
    (h : order.Perm (List.range cmds.length)) :
    (dispatch cmds order).length = cmds.length ∧
    (dispatch cmds order).Perm (cmds.map runCommand) := by
  constructor
  · rw [dispatch, List.length_map, h.length_eq, List.length_range]
  · have hp : (order.map (fun i => (cmds.map runCommand).getD i (.ok (false, none)))).Perm
        ((List.range cmds.length).map
          (fun i => (cmds.map runCommand).getD i (.ok (false, none)))) :=
      h.map _
    rw [dispatch]
    refine hp.trans ?_
    have hlen : cmds.length = (cmds.map runCommand).length :=
      (List.length_map _ _).symm
    rw [hlen, range_map_getD]

/-- Whether an outcome is a success (no captured fault). -/
def exceptIsOk : Except PyErr (Bool × Option Int) → Bool
  | .ok _ => true
  | .error _ => false

/-- A command whose levels query gets a non-dict response, so its
`'data' in result` check raises `TypeError`. -/
def wFailCmd : UpdateCommand :=
  { serverLevels := fun _ => some (.num 1),
    serverUpdate := fun _ _ _ _ => none,
    inventory_item_id := "x", location_id := "y", new_quantity := 0 }

/-- A command that succeeds (levels request fails softly, current 0,
target 0, so no mutation is needed). -/
def wOkCmd : UpdateCommand :=
  { serverLevels := fun _ => none,
    serverUpdate := fun _ _ _ _ => none,
    inventory_item_id := "x", location_id := "y", new_quantity := 0 }

/-- 50 commands of which the 5 at indices divisible by 10 fault. -/
def wCmds50 : List UpdateCommand :=
  (List.range 50).map (fun i => if i % 10 == 0 then wFailCmd else wOkCmd)

/-- Witness for C9: 50 commands with 5 faulting yield 50 outcomes —
45 successes and 5 captured faults. -/
theorem dispatch_spec_witness :
    (List.range 50).Perm (List.range wCmds50.length) ∧
    (dispatch wCmds50 (List.range 50)).length = wCmds50.length ∧
    (dispatch wCmds50 (List.range 50)).Perm (wCmds50.map runCommand) ∧
    (dispatch wCmds50 (List.range 50)).countP exceptIsOk = 45 ∧
    (dispatch wCmds50 (List.range 50)).countP (fun r => !exceptIsOk r) = 5 := by
  have hperm : (List.range 50).Perm (List.range wCmds50.length) := by
    rw [show wCmds50.length = 50 from rfl]
  have h := dispatch_spec wCmds50 (List.range 50) hperm
  exact ⟨hperm, h.1, h.2, rfl, rfl⟩

/-- A well-formed pagination log for a run whose first request carried
the cursor `c`: every iteration's request carries the previous page's
`endCursor`, every non-final page has a truthy `hasNextPage`, and the
run ends either at a failed iteration (`stopped`) or at a page whose
`hasNextPage` is falsy — exactly the loop's stopping conditions. -/
inductive GoodLog : Json → List PageLog → Prop
  | stop (c : Json) : GoodLog c [.stopped c]
  | last (c : Json) (n : Nat) (hn ec : Json) (h : pyTruthy hn = false) :
      GoodLog c [.fetched c n hn ec]
  | step (c : Json) (n : Nat) (hn ec : Json) (rest : List PageLog)
      (h : pyTruthy hn = true) (hr : GoodLog ec rest) :
      GoodLog c (.fetched c n hn ec :: rest)

theorem some_ok_inj {α β : Type} {a c : α} {b d : β}
    (h : (some (Except.ok (a, b)) : Option (Except PyErr (α × β)))
      = some (.ok (c, d))) : c = a ∧ d = b := by
  injection h with h1
  injection h1 with h2
  exact ⟨(congrArg Prod.fst h2).symm, (congrArg Prod.snd h2).symm⟩

theorem getAllLoop_invariant (server : String → Int → Json → Option Json)
    (lid : String) (first : Int) :
    ∀ (fuel : Nat) (hn c : Json) (acc recs : List InvRecord)
      (log logOut : List PageLog),
    getAllLoop server lid first fuel hn c acc log = some (.ok (recs, logOut)) →
    ∃ newRecs newLog, recs = acc ++ newRecs ∧ logOut = log ++ newLog ∧
      newRecs.length = sumRecords newLog ∧
      (pyTruthy hn = false → newLog = [] ∧ newRecs = []) ∧
      (pyTruthy hn = true → GoodLog c newLog) := by
  intro fuel
  induction fuel with
  | zero =>
    intro hn c acc recs log logOut h
    rw [getAllLoop] at h
    by_cases hhn : pyTruthy hn = true
    · rw [if_neg (by simp [hhn])] at h
      exact Option.noConfusion h
    · rw [if_pos (by simp [Bool.eq_false_iff.mpr hhn])] at h
      obtain ⟨rfl, rfl⟩ := some_ok_inj h
      exact ⟨[], [], by simp, by simp, rfl,
        fun _ => ⟨rfl, rfl⟩, fun ht => absurd ht hhn⟩
  | succ fuel ih =>
    intro hn c acc recs log logOut h
    rw [getAllLoop] at h
    by_cases hhn : pyTruthy hn = true
    case neg =>
      rw [if_pos (by simp [Bool.eq_false_iff.mpr hhn])] at h
      obtain ⟨rfl, rfl⟩ := some_ok_inj h
      exact ⟨[], [], by simp, by simp, rfl,
        fun _ => ⟨rfl, rfl⟩, fun ht => absurd ht hhn⟩
    case pos =>
    rw [if_neg (by simp [hhn])] at h
    cases hs : server lid first c with
    | none =>
      rw [hs] at h
      obtain ⟨rfl, rfl⟩ := some_ok_inj h
      refine ⟨[], [.stopped c], by simp, rfl, rfl, ?_, ?_⟩
      · intro hf
        exact absurd hhn (by simp [hf])
      · intro _
        exact GoodLog.stop c
    | some result =>
      rw [hs] at h
      dsimp only at h
      by_cases htr : pyTruthy result = true
      case neg =>
        rw [if_pos (by simp [Bool.eq_false_iff.mpr htr])] at h
        obtain ⟨rfl, rfl⟩ := some_ok_inj h
        refine ⟨[], [.stopped c], by simp, rfl, rfl, ?_, ?_⟩
        · intro hf
          exact absurd hhn (by simp [hf])
        · intro _
          exact GoodLog.stop c
      case pos =>
      rw [if_neg (by simp [htr])] at h
      cases hds : pyInStr "data" result with
      | error e =>
        rw [hds] at h
        exact absurd h (by simp)
      | ok hasData =>
        rw [hds] at h
        cases hasData with
        | false =>
          dsimp only at h
          obtain ⟨rfl, rfl⟩ := some_ok_inj h
          refine ⟨[], [.stopped c], by simp, rfl, rfl, ?_, ?_⟩
          · intro hf
            exact absurd hhn (by simp [hf])
          · intro _
            exact GoodLog.stop c
        | true =>
          dsimp only at h
          cases hloc : (do
              let d ← pyGet result "data"
              pyGet d "location" : Except PyErr Json) with
          | error e =>
            rw [hloc] at h
            exact absurd h (by simp)
          | ok loc =>
            rw [hloc] at h
            dsimp only at h
            by_cases hlt : pyTruthy loc = true
            case neg =>
              rw [if_pos (by simp [Bool.eq_false_iff.mpr hlt])] at h
              obtain ⟨rfl, rfl⟩ := some_ok_inj h
              refine ⟨[], [.stopped c], by simp, rfl, rfl, ?_, ?_⟩
              · intro hf
                exact absurd hhn (by simp [hf])
              · intro _
                exact GoodLog.stop c
            case pos =>
            rw [if_neg (by simp [hlt])] at h
            cases hp : parsePage loc with
            | error e =>
              rw [hp] at h
              exact absurd h (by simp)
            | ok triple =>
              obtain ⟨recs0, hn2, ec2⟩ := triple
              rw [hp] at h
              dsimp only at h
              obtain ⟨nr, nl, h1, h2, h3, h4, h5⟩ := ih hn2 ec2 (acc ++ recs0)
                recs (log ++ [.fetched c recs0.length hn2 ec2]) logOut h
              refine ⟨recs0 ++ nr, .fetched c recs0.length hn2 ec2 :: nl,
                ?_, ?_, ?_, ?_, ?_⟩
              · rw [h1, List.append_assoc]
              · rw [h2, List.append_assoc]
                rfl
              · rw [List.length_append, h3]
                rfl
              · intro hf
                exact absurd hhn (by simp [hf])
              · intro _
                by_cases hnx : pyTruthy hn2 = true
                · exact GoodLog.step c recs0.length hn2 ec2 nl hnx (h5 hnx)
                · have hfalse : pyTruthy hn2 = false := Bool.eq_false_iff.mpr hnx
                  obtain ⟨hnl, hnr⟩ := h4 hfalse
                  rw [hnl]
                  exact GoodLog.last c recs0.length hn2 ec2 hfalse

/-- An inventory-level edge with the given short id and available
quantity. -/
def mkInvEdge (s : String) (q : Int) : Json :=
  .obj [("node", .obj [
    ("id", .str ("gid://shopify/InventoryLevel/" ++ s)),
    ("quantities", .arr [.obj [("name", .str "available"),
      ("quantity", .num q)]]),
    ("item", .obj [
      ("id", .str ("gid://shopify/InventoryItem/" ++ s)),
      ("sku", .str ("SKU-" ++ s)),
      ("tracked", .bool true)])])]

/-- A full inventory-page response with the given edges and page
info. -/
def mkInvPage (edges : List Json) (hasNext : Bool) (endCursor : Json) : Json :=
  .obj [("data", .obj [("location", .obj [
    ("id", .str "gid://shopify/Location/1"),
    ("name", .str "Main"),
    ("inventoryLevels", .obj [
      ("edges", .arr edges),
      ("pageInfo", .obj [
        ("hasNextPage", .bool hasNext),
        ("endCursor", endCursor)])])])])]

/-- A server serving pages of sizes [3,3,1] with correct continuation
cursors: the first request (cursor `None`) gets records 1–3 and cursor
`c1`, the `c1` request gets records 4–6 and cursor `c2`, and the `c2`
request gets record 7 with no next page. -/
def wPagedServer : String → Int → Json → Option Json := fun _ _ after =>
  match after with
  | .null => some (mkInvPage [mkInvEdge "1" 1, mkInvEdge "2" 2, mkInvEdge "3" 3]
      true (.str "c1"))
  | .str "c1" => some (mkInvPage [mkInvEdge "4" 4, mkInvEdge "5" 5, mkInvEdge "6" 6]
      true (.str "c2"))
  | .str "c2" => some (mkInvPage [mkInvEdge "7" 7] false .null)
  | _ => none

/-- The record [[mkInvEdge]] flattens to. -/
def wInvRec (s : String) (q : Int) : InvRecord :=
  { inventory_level_id := s,
    inventory_level_gid := "gid://shopify/InventoryLevel/" ++ s,
    available := .num q, inventory_item_id := s,
    inventory_item_gid := "gid://shopify/InventoryItem/" ++ s,
    sku := .str ("SKU-" ++ s), tracked := .bool true,
    location_name := .str "Main", quantities := [(.str "available", .num q)] }

/-- The seven records of the [3,3,1] run, in page order. -/
def wPagedRecs : List InvRecord :=
  [wInvRec "1" 1, wInvRec "2" 2, wInvRec "3" 3, wInvRec "4" 4,
   wInvRec "5" 5, wInvRec "6" 6, wInvRec "7" 7]

/-- The iteration log of the [3,3,1] run: three requests. -/
def wPagedLog : List PageLog :=
  [.fetched .null 3 (.bool true) (.str "c1"),
   .fetched (.str "c1") 3 (.bool true) (.str "c2"),
   .fetched (.str "c2") 1 (.bool false) .null]

/-- C1: on the [3,3,1] server the function returns exactly 7 records
in page order while issuing exactly 3 requests (cursors `None`, `c1`,
`c2`); and in general every successful run's flattened length equals
the sum of per-page record counts, with a `GoodLog`: the first request
carries cursor `None`, each later request carries the previous page's
`endCursor`, and the run stops exactly when `hasNextPage` is falsy or
an iteration's request fails or yields no location data. -/
theorem get_all_inventory_pagination_spec :
    (get_all_inventory_by_location wPagedServer "1" 250 10
        = some (.ok (wPagedRecs, wPagedLog)) ∧
      wPagedRecs.length = 7 ∧
      wPagedRecs.map (fun r => r.inventory_item_id)
        = ["1", "2", "3", "4", "5", "6", "7"] ∧
      wPagedLog.map PageLog.afterCursor = [.null, .str "c1", .str "c2"]) ∧
    (∀ (server : String → Int → Json → Option Json) (location_id : String)
        (limit : Int) (fuel : Nat) (recs : List InvRecord)
        (log : List PageLog),
      get_all_inventory_by_location server location_id limit fuel
        = some (.ok (recs, log)) →
      recs.length = sumRecords log ∧ GoodLog .null log) := by
  constructor
  · exact ⟨rfl, rfl, rfl, rfl⟩
  · intro server location_id limit fuel recs log h
    obtain ⟨nr, nl, h1, h2, h3, h4, h5⟩ :=
      getAllLoop_invariant server (normalizeLocationId location_id)
        (min limit 250) fuel (.bool true) .null [] recs [] log h
    rw [List.nil_append] at h1 h2
    subst h1
    subst h2
    exact ⟨h3, h5 rfl⟩

/-- Witness for C1: the general pagination invariant instantiated on
the concrete [3,3,1] run. -/
theorem get_all_inventory_pagination_spec_witness :
    get_all_inventory_by_location wPagedServer "1" 250 10
        = some (.ok (wPagedRecs, wPagedLog)) ∧
    wPagedRecs.length = sumRecords wPagedLog ∧ GoodLog .null wPagedLog :=
  ⟨rfl, get_all_inventory_pagination_spec.2 wPagedServer "1" 250 10
    wPagedRecs wPagedLog rfl⟩

/-- C6: whenever an iteration's request fails while records and log
have already been collected (returns `None`, a falsy response, a
response without `'data'`, or a falsy `data.location`), the loop
terminates at once with `ok`, returning exactly the records collected
from the pages already fetched — partial results are kept, no fault is
raised. -/
theorem getAllLoop_partial_results
    (server : String → Int → Json → Option Json) (lid : String) (first : Int)
    (fuel : Nat) (hn c : Json) (acc : List InvRecord) (log : List PageLog)
    (hhn : pyTruthy hn = true)
    (hfail : server lid first c = none ∨
      (∃ r, server lid first c = some r ∧ pyTruthy r = false) ∨
      (∃ r, server lid first c = some r ∧ pyTruthy r = true ∧
        pyInStr "data" r = .ok false) ∨
      (∃ r loc, server lid first c = some r ∧ pyTruthy r = true ∧
        pyInStr "data" r = .ok true ∧
        (do
          let d ← pyGet r "data"
          pyGet d "location" : Except PyErr Json) = .ok loc ∧
        pyTruthy loc = false)) :
    getAllLoop server lid first (fuel + 1) hn c acc log =
      some (.ok (acc, log ++ [.stopped c])) := by
  rw [getAllLoop, if_neg (by simp [hhn])]
  rcases hfail with h | ⟨r, hr, hf⟩ | ⟨r, hr, ht, hf⟩ |
    ⟨r, loc, hr, ht, hd, hl, hf⟩
  · rw [h]
  · rw [hr]
    dsimp only
    rw [if_pos (by simp [hf])]
  · rw [hr]
    dsimp only
    rw [if_neg (by simp [ht]), hf]
  · rw [hr]
    dsimp only
    rw [if_neg (by simp [ht]), hd]
    dsimp only
    rw [hl]
    dsimp only
    rw [if_pos (by simp [hf])]

/-- A server whose first page succeeds (3 records, next cursor `c1`)
and whose second request fails. -/
def wFailingServer : String → Int → Json → Option Json := fun _ _ after =>
  match after with
  | .null => some (mkInvPage [mkInvEdge "1" 1, mkInvEdge "2" 2, mkInvEdge "3" 3]
      true (.str "c1"))
  | _ => none

/-- Witness for C6: after one fetched page the failing second request
makes the loop return the three already-collected records, and the
whole `get_all_inventory_by_location` run indeed returns them. -/
theorem getAllLoop_partial_results_witness :
    pyTruthy (.bool true) = true ∧
    getAllLoop wFailingServer "gid://shopify/Location/1" 250 5 (.bool true)
        (.str "c1") [wInvRec "1" 1, wInvRec "2" 2, wInvRec "3" 3]
        [.fetched .null 3 (.bool true) (.str "c1")] =
      some (.ok ([wInvRec "1" 1, wInvRec "2" 2, wInvRec "3" 3],
        [.fetched .null 3 (.bool true) (.str "c1"), .stopped (.str "c1")])) ∧
    get_all_inventory_by_location wFailingServer "1" 250 5 =
      some (.ok ([wInvRec "1" 1, wInvRec "2" 2, wInvRec "3" 3],
        [.fetched .null 3 (.bool true) (.str "c1"), .stopped (.str "c1")])) := by
  refine ⟨rfl, ?_, rfl⟩
  exact getAllLoop_partial_results wFailingServer "gid://shopify/Location/1"
    250 4 (.bool true) (.str "c1") _ _ rfl (Or.inl rfl)
